import Mathlib

/-!
Verification of the scoring core of the PhishGuard service
(`src/api/genai_app.py`): URL feature extraction, the rule-based
heuristic score, fusion with the externally supplied score, and verdict
thresholding.  Machine numbers are modelled exactly: Python ints as `Nat`
and the float arithmetic of the fusion step as `ℚ` (the decimal literals
0.45 and 0.55 and every score value appearing in the statements below are
exactly representable in both models, and no statement evaluates the
2-decimal rounding at a tie, the only place where Python's
round-half-to-even and the half-up `round` used here could differ).
-/

namespace PhishGuard

/-- The eight-entry suspicious top-level-domain denylist
(`SUSPICIOUS_TLDS` in the source). -/
def SUSPICIOUS_TLDS : List String :=
  ["xyz", "zip", "click", "top", "tk", "ml", "ga", "cf"]

/-! ### The `is_ip` check — the regex `\d{1,3}(\.\d{1,3}){3}`, full match

Python's `re.fullmatch` succeeds iff the whole string decomposes
according to the pattern.  The pattern is embedded as an executable
matcher on the character list: `takeGroup l k` consumes exactly `k`
digits, `groupThen` is the alternation over the `{1,3}` repetition
count, and `tailGroups n` matches `(\.\d{1,3}){n}` against the whole
remainder.  The digit class `\d` of a Python str pattern matches every
Unicode decimal digit (category Nd), not only ASCII 0-9, so the digit
predicate is taken from the Nd codepoint table. -/

/-- The codepoint ranges of the Unicode decimal-digit category Nd,
which is exactly the set of characters Python's `re` module lets `\d`
match in a str pattern (default, non-ASCII-flag mode).  Listed as
inclusive (first, last) codepoint pairs. -/
def ndRanges : List (Nat × Nat) :=
  [(48, 57), (1632, 1641), (1776, 1785), (1984, 1993),
   (2406, 2415), (2534, 2543), (2662, 2671), (2790, 2799),
   (2918, 2927), (3046, 3055), (3174, 3183), (3302, 3311),
   (3430, 3439), (3558, 3567), (3664, 3673), (3792, 3801),
   (3872, 3881), (4160, 4169), (4240, 4249), (6112, 6121),
   (6160, 6169), (6470, 6479), (6608, 6617), (6784, 6793),
   (6800, 6809), (6992, 7001), (7088, 7097), (7232, 7241),
   (7248, 7257), (42528, 42537), (43216, 43225), (43264, 43273),
   (43472, 43481), (43504, 43513), (43600, 43609), (44016, 44025),
   (65296, 65305), (66720, 66729), (68912, 68921), (69734, 69743),
   (69872, 69881), (69942, 69951), (70096, 70105), (70384, 70393),
   (70736, 70745), (70864, 70873), (71248, 71257), (71360, 71369),
   (71472, 71481), (71904, 71913), (72016, 72025), (72784, 72793),
   (73040, 73049), (73120, 73129), (92768, 92777), (92864, 92873),
   (93008, 93017), (120782, 120831), (123200, 123209), (123632, 123641),
   (125264, 125273), (130032, 130041)]

/-- A character `\d` matches: a Unicode decimal digit.  Python's regex
digit class covers all of category Nd, not only ASCII 0-9. -/
def isRegexDigit (c : Char) : Bool :=
  ndRanges.any (fun p => decide (p.1 ≤ c.toNat) && decide (c.toNat ≤ p.2))

/-- Consume exactly `k` decimal-digit characters from `l`, returning
the rest. -/
def takeGroup : List Char → Nat → Option (List Char)
  | rest, 0 => some rest
  | c :: rest, k + 1 => if isRegexDigit c then takeGroup rest k else none
  | [], _ + 1 => none

/-- Match `\d{1,3}` at the front of `l`, then `cont` on the remainder:
the alternation over the three possible repetition counts. -/
def groupThen (l : List Char) (cont : List Char → Bool) : Bool :=
  (match takeGroup l 1 with | some r => cont r | none => false) ||
  (match takeGroup l 2 with | some r => cont r | none => false) ||
  (match takeGroup l 3 with | some r => cont r | none => false)

/-- Match `(\.\d{1,3}){n}` against all of `l`. -/
def tailGroups : Nat → List Char → Bool
  | 0, l => l.isEmpty
  | n + 1, c :: rest => if c = '.' then groupThen rest (tailGroups n) else false
  | _ + 1, [] => false

/-- Full match of `\d{1,3}(\.\d{1,3}){3}` against `l`. -/
def ipMatch (l : List Char) : Bool :=
  groupThen l (tailGroups 3)

/-- Function `is_ip` from the source:
`re.fullmatch(r"\d{1,3}(\.\d{1,3}){3}", host)` coerced to a boolean. -/
def is_ip (host : String) : Bool :=
  ipMatch host.data

/-! ### Feature extraction -/

/-- The part of `tldextract.extract(url)` that `get_url_features` reads:
the fully-qualified domain and the public suffix.  The extraction library
is an external collaborator (its suffix database lives outside this
repository), so extraction results are universally quantified in the
theorems.  Note that the source file never imports `tldextract`, so the
call as written raises `NameError` at runtime; this model captures the
extraction behaviour the spec describes as intended. -/
structure TldExtractResult where
  fqdn : String
  suffix : String

/-- Count occurrences of the character `c` in `s`
(Python `host.count(".")` with a one-character needle). -/
def countChar (s : String) (c : Char) : Nat :=
  s.data.count c

/-- The `FeatureSet` dictionary built by `get_url_features`. -/
structure ScanFeatures where
  host : String
  url_length : Nat
  num_dots : Nat
  num_hyphens : Nat
  has_https : Bool
  looks_like_ip : Bool
  suspicious_tld : Bool
  deriving DecidableEq, Repr

/-- Function `get_url_features`, parameterised by the extraction result
`ext` standing for `tldextract.extract(url)`. -/
def get_url_features (url : String) (ext : TldExtractResult) : ScanFeatures :=
  let host := ext.fqdn
  { host := host
    url_length := url.length
    num_dots := countChar host '.'
    num_hyphens := countChar host '-'
    has_https := url.startsWith "https"
    looks_like_ip := is_ip host
    suspicious_tld := SUSPICIOUS_TLDS.contains ext.suffix }

/-! ### Heuristic scorer -/

/-- Function `ml_score_calc`: sequential accumulation in the source's
rule order, then the `min(score, 100)` clamp.  The Python score value is
an `int`. -/
def ml_score_calc (features : ScanFeatures) : Nat × List String :=
  let score : Nat := 0
  let reasons : List String := []
  let p1 := if features.looks_like_ip then
    (score + 20, reasons ++ ["IP address used instead of domain"]) else (score, reasons)
  let p2 := if features.suspicious_tld then
    (p1.1 + 15, p1.2 ++ ["Suspicious TLD detected"]) else p1
  let p3 := if features.url_length > 70 then
    (p2.1 + 10, p2.2 ++ ["Unusually long URL"]) else p2
  let p4 := if features.num_hyphens ≥ 3 then
    (p3.1 + 10, p3.2 ++ ["Too many hyphens in domain"]) else p3
  let p5 := if !features.has_https then
    (p4.1 + 10, p4.2 ++ ["HTTPS not used"]) else p4
  (min p5.1 100, p5.2)

/-- The same accumulation without the final `min(score, 100)` clamp,
used to show the clamp never changes the result. -/
def ml_score_calc_noclamp (features : ScanFeatures) : Nat × List String :=
  let score : Nat := 0
  let reasons : List String := []
  let p1 := if features.looks_like_ip then
    (score + 20, reasons ++ ["IP address used instead of domain"]) else (score, reasons)
  let p2 := if features.suspicious_tld then
    (p1.1 + 15, p1.2 ++ ["Suspicious TLD detected"]) else p1
  let p3 := if features.url_length > 70 then
    (p2.1 + 10, p2.2 ++ ["Unusually long URL"]) else p2
  let p4 := if features.num_hyphens ≥ 3 then
    (p3.1 + 10, p3.2 ++ ["Too many hyphens in domain"]) else p3
  let p5 := if !features.has_https then
    (p4.1 + 10, p4.2 ++ ["HTTPS not used"]) else p4
  (p5.1, p5.2)

/-- A weighted rule of the heuristic scorer, as §4.2 of the spec
describes it: a condition, a weight, and a reason string. -/
structure HeuristicRule where
  cond : ScanFeatures → Bool
  weight : Nat
  reason : String

/-- Spec-side rule table: the five rules of §4.2 in their fixed order.
This definition follows the specification's words, to be compared with
`ml_score_calc` taken from the source. -/
def specRules : List HeuristicRule :=
  [⟨fun f => f.looks_like_ip, 20, "IP address used instead of domain"⟩,
   ⟨fun f => f.suspicious_tld, 15, "Suspicious TLD detected"⟩,
   ⟨fun f => decide (f.url_length > 70), 10, "Unusually long URL"⟩,
   ⟨fun f => decide (f.num_hyphens ≥ 3), 10, "Too many hyphens in domain"⟩,
   ⟨fun f => !f.has_https, 10, "HTTPS not used"⟩]

/-- Spec-side scorer: start at 0, fold the rule table in order adding
weight and appending the reason for each triggered rule, then clamp to
at most 100.  This definition follows the specification's words. -/
def heuristicSpec (f : ScanFeatures) : Nat × List String :=
  let acc := specRules.foldl
    (fun acc r => if r.cond f then (acc.1 + r.weight, acc.2 ++ [r.reason]) else acc)
    (0, [])
  (min acc.1 100, acc.2)

/-- The clamped weighted sum as a function of the five rule conditions
alone; used to reason about the score uniformly. -/
def condScore (a b c d e : Bool) : Nat :=
  min ((if a then 20 else 0) + (if b then 15 else 0) + (if c then 10 else 0) +
    (if d then 10 else 0) + (if e then 10 else 0)) 100

/-! ### External reply and the scan core -/

/-- The parsed external reply, as an untrusted structure: each expected
key may be absent (`none`), mirroring a Python dict that parsed as a
JSON object but may lack fields.  The numeric score is modelled exactly
as a rational. -/
structure GenaiReply where
  genai_score : Option ℚ
  verdict : Option String
  top_reasons : Option (List String)
  notes : Option String

/-- Python `round(x, 2)` on the exact value: scale by 100, round to the
nearest integer, scale back. -/
def round2 (q : ℚ) : ℚ :=
  (round (q * 100) : ℚ) / 100

/-- The response record returned by `scan` (`ScanResponse` in the
source); `signals` carries the feature set and `genai_summary` the raw
external reply. -/
structure ScanResponseM where
  url : String
  verdict : String
  risk_score : ℚ
  ml_score : ℚ
  genai_score : ℚ
  reasons : List String
  signals : ScanFeatures
  genai_summary : GenaiReply

/-- The body of the `scan` route after feature extraction and the
external call: score extraction with the `.get` defaults, weighted
fusion, verdict thresholding, reason merging and truncation, and
response construction. -/
def scanCore (url : String) (features : ScanFeatures) (genai : GenaiReply) :
    ScanResponseM :=
  let mlPair := ml_score_calc features
  let ml_score : ℚ := (mlPair.1 : ℚ)
  let ml_reasons := mlPair.2
  let genai_score : ℚ := genai.genai_score.getD 50
  let final_score : ℚ := 0.45 * ml_score + 0.55 * genai_score
  let verdict : String :=
    if final_score ≥ 75 then "PHISHING"
    else if final_score ≥ 45 then "SUSPICIOUS"
    else "SAFE"
  let reasons := ml_reasons ++ genai.top_reasons.getD []
  { url := url
    verdict := verdict
    risk_score := round2 final_score
    ml_score := ml_score
    genai_score := genai_score
    reasons := reasons.take 6
    signals := features
    genai_summary := genai }

/-! ### Concrete feature sets and replies used in instances -/

/-- All five rules triggered (the spec's own §8 test vector). -/
def allTriggered : ScanFeatures := ⟨"", 80, 0, 4, false, true, true⟩

/-- No rule triggered: all flags false, thresholds not met, HTTPS on. -/
def noneTriggered : ScanFeatures := ⟨"", 30, 0, 0, true, false, false⟩

/-- Only the IP-literal rule triggered: heuristic score 20. -/
def ipOnly : ScanFeatures := ⟨"1.2.3.4", 30, 3, 0, true, true, false⟩

/-- IP-literal, suspicious TLD and long-URL rules triggered:
heuristic score 45. -/
def ipTldLong : ScanFeatures := ⟨"1.2.3.4", 80, 3, 0, true, true, true⟩

/-- Only the missing-HTTPS rule triggered: heuristic score 10. -/
def httpOnly : ScanFeatures := ⟨"example.com", 30, 1, 0, false, false, false⟩

/-- External reply whose score puts the fused value at 74.99625, which
rounds to 75.00 but lies strictly below the 75 threshold. -/
def nearBoundaryReply : GenaiReply := ⟨some 83.175, some "PHISHING", some [], some ""⟩

/-- External score 120 with heuristic score 20 fuses to exactly 75. -/
def phishingBoundaryReply : GenaiReply := ⟨some 120, some "SAFE", some [], some ""⟩

/-- External score 45 with heuristic score 45 fuses to exactly 45. -/
def suspiciousBoundaryReply : GenaiReply := ⟨some 45, some "SAFE", some [], some ""⟩

/-- External score 81.8 with heuristic score 0 fuses to exactly 44.99. -/
def safeBoundaryReply : GenaiReply := ⟨some 81.8, some "PHISHING", some [], some ""⟩

/-- A parsed reply carrying a score but no `top_reasons` key. -/
def noTopReply : GenaiReply := ⟨some 60, some "SAFE", none, none⟩

/-! ### Shape predicate for the IP regex -/

/-- A group of one to three characters, all Unicode decimal digits
(`\d{1,3}`). -/
def isOctetShape (g : List Char) : Prop :=
  1 ≤ g.length ∧ g.length ≤ 3 ∧ ∀ c ∈ g, isRegexDigit c = true

/-- Decomposition of `l` as `n + 1` dot-separated digit groups:
the meaning of `\d{1,3}(\.\d{1,3}){n}` as a full match. -/
def GroupsProp : Nat → List Char → Prop
  | 0, l => isOctetShape l
  | n + 1, l => ∃ g rest, isOctetShape g ∧ l = g ++ '.' :: rest ∧ GroupsProp n rest

/-- Four dot-separated groups of one to three digits each: the shape the
spec ascribes to `looks_like_ip`. -/
def fourGroups (l : List Char) : Prop :=
  ∃ g1 g2 g3 g4 : List Char,
    isOctetShape g1 ∧ isOctetShape g2 ∧ isOctetShape g3 ∧ isOctetShape g4 ∧
    l = g1 ++ '.' :: (g2 ++ '.' :: (g3 ++ '.' :: g4))

/-! ### Helper lemmas -/

/-- Consuming exactly `k` characters succeeds with remainder `r` iff the
input splits as a `k`-digit group followed by `r`. -/
theorem takeGroup_eq_some (k : Nat) :
    ∀ l r : List Char, takeGroup l k = some r ↔
      ∃ g, l = g ++ r ∧ g.length = k ∧ ∀ c ∈ g, isRegexDigit c = true := by
  induction k with
  | zero =>
    intro l r
    simp only [takeGroup]
    constructor
    · rintro h
      injection h with h
      exact ⟨[], by simp [h], rfl, by simp⟩
    · rintro ⟨g, rfl, hg, _⟩
      rw [List.length_eq_zero] at hg
      subst hg
      rfl
  | succ k ih =>
    intro l r
    cases l with
    | nil =>
      simp only [takeGroup]
      constructor
      · intro h; exact absurd h (by simp)
      · rintro ⟨g, hg, hlen, _⟩
        have : g = [] := by
          cases g with
          | nil => rfl
          | cons a b => simp at hg
        subst this
        simp at hlen
    | cons c rest =>
      simp only [takeGroup]
      by_cases hc : isRegexDigit c
      · rw [if_pos hc, ih]
        constructor
        · rintro ⟨g, rfl, hlen, hdig⟩
          refine ⟨c :: g, rfl, by simp [hlen], ?_⟩
          intro x hx
          rcases List.mem_cons.1 hx with h | h
          · subst h; exact hc
          · exact hdig x h
        · rintro ⟨g, hg, hlen, hdig⟩
          cases g with
          | nil => simp at hlen
          | cons c2 g2 =>
            rw [List.cons_append] at hg
            injection hg with h1 h2
            subst h1
            refine ⟨g2, h2, by simpa using hlen,
              fun x hx => hdig x (List.mem_cons_of_mem _ hx)⟩
      · rw [if_neg hc]
        constructor
        · intro h; exact absurd h (by simp)
        · rintro ⟨g, hg, hlen, hdig⟩
          cases g with
          | nil => simp at hlen
          | cons c2 g2 =>
            rw [List.cons_append] at hg
            injection hg with h1 h2
            subst h1
            exact absurd (hdig c (by simp)) (by simpa using hc)

/-- The alternation `\d{1,3}` followed by a continuation succeeds iff
the input splits as a one-to-three-digit group and a remainder accepted
by the continuation. -/
theorem groupThen_eq_true (l : List Char) (cont : List Char → Bool) :
    groupThen l cont = true ↔
      ∃ g r, l = g ++ r ∧ isOctetShape g ∧ cont r = true := by
  have hmatch : ∀ k : Nat,
      (match takeGroup l k with | some r => cont r | none => false) = true ↔
        ∃ r, takeGroup l k = some r ∧ cont r = true := by
    intro k
    rcases h : takeGroup l k with _ | r <;> simp [h]
  simp only [groupThen, Bool.or_eq_true, hmatch, takeGroup_eq_some]
  constructor
  · rintro ((⟨r, ⟨g, rfl, hlen, hdig⟩, hcont⟩ | ⟨r, ⟨g, rfl, hlen, hdig⟩, hcont⟩) |
      ⟨r, ⟨g, rfl, hlen, hdig⟩, hcont⟩)
    · exact ⟨g, r, rfl, ⟨by omega, by omega, hdig⟩, hcont⟩
    · exact ⟨g, r, rfl, ⟨by omega, by omega, hdig⟩, hcont⟩
    · exact ⟨g, r, rfl, ⟨by omega, by omega, hdig⟩, hcont⟩
  · rintro ⟨g, r, rfl, ⟨h1, h3, hdig⟩, hcont⟩
    have hcase : g.length = 1 ∨ g.length = 2 ∨ g.length = 3 := by omega
    rcases hcase with h | h | h
    · exact Or.inl (Or.inl ⟨r, ⟨g, rfl, h, hdig⟩, hcont⟩)
    · exact Or.inl (Or.inr ⟨r, ⟨g, rfl, h, hdig⟩, hcont⟩)
    · exact Or.inr ⟨r, ⟨g, rfl, h, hdig⟩, hcont⟩

/-- The matcher for `\d{1,3}(\.\d{1,3}){n}` agrees with the
decomposition predicate. -/
theorem groupThen_tailGroups (n : Nat) :
    ∀ l : List Char, groupThen l (tailGroups n) = true ↔ GroupsProp n l := by
  induction n with
  | zero =>
    intro l
    rw [groupThen_eq_true]
    simp only [GroupsProp]
    constructor
    · rintro ⟨g, r, rfl, hshape, hr⟩
      rw [tailGroups] at hr
      rw [List.isEmpty_iff] at hr
      subst hr
      simpa using hshape
    · intro h
      exact ⟨l, [], by simp, h, by rw [tailGroups]; simp⟩
  | succ n ih =>
    intro l
    rw [groupThen_eq_true]
    simp only [GroupsProp]
    constructor
    · rintro ⟨g, r, rfl, hshape, hr⟩
      cases r with
      | nil => rw [tailGroups] at hr; exact absurd hr (by simp)
      | cons c rest =>
        rw [tailGroups] at hr
        by_cases hc : c = '.'
        · rw [if_pos hc, ih] at hr
          subst hc
          exact ⟨g, rest, hshape, rfl, hr⟩
        · rw [if_neg hc] at hr
          exact absurd hr (by simp)
    · rintro ⟨g, rest, hshape, rfl, hrest⟩
      refine ⟨g, '.' :: rest, rfl, hshape, ?_⟩
      rw [tailGroups, if_pos rfl, ih]
      exact hrest

/-- Unfolding of the four-group decomposition. -/
theorem GroupsProp_three (l : List Char) : GroupsProp 3 l ↔ fourGroups l := by
  simp only [GroupsProp, fourGroups]
  constructor
  · rintro ⟨g1, r1, h1, rfl, g2, r2, h2, rfl, g3, r3, h3, rfl, h4⟩
    exact ⟨g1, g2, g3, r3, h1, h2, h3, h4, rfl⟩
  · rintro ⟨g1, g2, g3, g4, h1, h2, h3, h4, rfl⟩
    exact ⟨g1, _, h1, rfl, g2, _, h2, rfl, g3, _, h3, rfl, h4⟩

/-- The verdict field of the response, written out as the two-threshold
conditional on the exact fused score. -/
theorem scan_verdict_eq (url : String) (f : ScanFeatures) (g : GenaiReply) :
    (scanCore url f g).verdict =
      (if 0.45 * ((ml_score_calc f).1 : ℚ) + 0.55 * g.genai_score.getD 50 ≥ 75
        then "PHISHING"
       else if 0.45 * ((ml_score_calc f).1 : ℚ) + 0.55 * g.genai_score.getD 50 ≥ 45
        then "SUSPICIOUS" else "SAFE") := rfl

/-- The heuristic score as a function of the five rule conditions. -/
theorem ml_fst_eq (f : ScanFeatures) :
    (ml_score_calc f).1 = condScore f.looks_like_ip f.suspicious_tld
      (decide (f.url_length > 70)) (decide (f.num_hyphens ≥ 3)) (!f.has_https) := by
  simp only [ml_score_calc, condScore, decide_eq_true_eq]
  split_ifs <;> rfl

/-- The clamped weighted sum is monotone in the rule conditions. -/
theorem condScore_mono :
    ∀ a1 b1 c1 d1 e1 a2 b2 c2 d2 e2 : Bool,
      (a1 = true → a2 = true) → (b1 = true → b2 = true) → (c1 = true → c2 = true) →
      (d1 = true → d2 = true) → (e1 = true → e2 = true) →
      condScore a1 b1 c1 d1 e1 ≤ condScore a2 b2 c2 d2 e2 := by decide

/-! ### Claim theorems -/

/-- C1: feature extraction on an underivable host (modelled as the empty
string, per the intended `tldextract` behaviour) yields zero dot and
hyphen counts and a false IP flag, with no failure.  Note: the source as
written raises `NameError` on every call because `tldextract` is never
imported; this theorem is about the behaviour the spec describes as
intended. -/
theorem get_url_features_empty_host (url suffix : String) :
    (get_url_features url ⟨"", suffix⟩).host = "" ∧
    (get_url_features url ⟨"", suffix⟩).num_dots = 0 ∧
    (get_url_features url ⟨"", suffix⟩).num_hyphens = 0 ∧
    (get_url_features url ⟨"", suffix⟩).looks_like_ip = false :=
  ⟨rfl, rfl, rfl, (by decide : is_ip "" = false)⟩

/-- C2 counterexample: with all five heuristic rules triggered
(ml score 65) and external score 83.175 the fused value is 74.99625;
it rounds to exactly 75.00, so a verdict computed from the rounded score
would be PHISHING, yet the code returns SUSPICIOUS: the thresholds are
applied to the unrounded value. -/
theorem verdict_uses_unrounded_score_cex :
    round2 (0.45 * (scanCore "http://a" allTriggered nearBoundaryReply).ml_score +
      0.55 * (scanCore "http://a" allTriggered nearBoundaryReply).genai_score) = 75 ∧
    (scanCore "http://a" allTriggered nearBoundaryReply).verdict = "SUSPICIOUS" := by
  have hml : (ml_score_calc allTriggered).1 = 65 := by decide
  constructor
  · show round2 (0.45 * ((ml_score_calc allTriggered).1 : ℚ) +
      0.55 * ((nearBoundaryReply : GenaiReply).genai_score.getD 50)) = 75
    rw [hml]
    norm_num [nearBoundaryReply, round2, round_eq]
  · rw [scan_verdict_eq, hml]
    norm_num [nearBoundaryReply]

/-- C2 (amended): the verdict is computed from the unrounded fused score
0.45·ml + 0.55·genai — PHISHING iff the score is at least 75, SUSPICIOUS
iff it is in [45, 75), SAFE iff it is below 45; only the reported
risk_score is rounded.  A fused score of exactly 75.00 yields PHISHING,
exactly 45.00 yields SUSPICIOUS, and exactly 44.99 yields SAFE. -/
theorem verdict_thresholds_on_unrounded_score :
    (∀ (url : String) (f : ScanFeatures) (g : GenaiReply),
      ((scanCore url f g).verdict = "PHISHING" ↔
        0.45 * ((ml_score_calc f).1 : ℚ) + 0.55 * g.genai_score.getD 50 ≥ 75) ∧
      ((scanCore url f g).verdict = "SUSPICIOUS" ↔
        (45 ≤ 0.45 * ((ml_score_calc f).1 : ℚ) + 0.55 * g.genai_score.getD 50 ∧
         0.45 * ((ml_score_calc f).1 : ℚ) + 0.55 * g.genai_score.getD 50 < 75)) ∧
      ((scanCore url f g).verdict = "SAFE" ↔
        0.45 * ((ml_score_calc f).1 : ℚ) + 0.55 * g.genai_score.getD 50 < 45)) ∧
    (scanCore "http://a" ipOnly phishingBoundaryReply).verdict = "PHISHING" ∧
    (scanCore "http://a" ipTldLong suspiciousBoundaryReply).verdict = "SUSPICIOUS" ∧
    (scanCore "http://a" noneTriggered safeBoundaryReply).verdict = "SAFE" := by
  refine ⟨fun url f g => ?_, ?_, ?_, ?_⟩
  · rw [scan_verdict_eq]
    split_ifs with h1 h2
    · refine ⟨by simp [h1], ?_, ?_⟩
      · constructor
        · intro h; exact absurd h (by decide)
        · rintro ⟨-, hlt⟩; exact absurd h1 (not_le.2 hlt)
      · constructor
        · intro h; exact absurd h (by decide)
        · intro hlt; exact absurd h1 (not_le.2 (lt_trans hlt (by norm_num)))
    · refine ⟨?_, ⟨fun _ => ⟨h2, not_le.1 h1⟩, fun _ => rfl⟩, ?_⟩
      · constructor
        · intro h; exact absurd h (by decide)
        · intro h; exact absurd h h1
      · constructor
        · intro h; exact absurd h (by decide)
        · intro hlt; exact absurd h2 (not_le.2 hlt)
    · refine ⟨?_, ?_, ⟨fun _ => not_le.1 h2, fun _ => rfl⟩⟩
      · constructor
        · intro h; exact absurd h (by decide)
        · intro h; exact absurd h h1
      · constructor
        · intro h; exact absurd h (by decide)
        · rintro ⟨hge, -⟩; exact absurd hge h2
  · rw [scan_verdict_eq, show (ml_score_calc ipOnly).1 = 20 by decide]
    norm_num [phishingBoundaryReply]
  · rw [scan_verdict_eq, show (ml_score_calc ipTldLong).1 = 45 by decide]
    norm_num [suspiciousBoundaryReply]
  · rw [scan_verdict_eq, show (ml_score_calc noneTriggered).1 = 0 by decide]
    norm_num [safeBoundaryReply]

/-- C3 counterexample: a parsed reply that carries a score but no
`top_reasons` key is not rejected — the scan completes with the empty
list silently substituted, so the returned reasons are the heuristic
reasons alone.  The missing field is given a default, contrary to the
claim that only `genai_score` is. -/
theorem missing_top_reasons_defaulted_cex :
    (scanCore "http://example.com" httpOnly noTopReply).reasons = ["HTTPS not used"] ∧
    (scanCore "http://example.com" httpOnly noTopReply).genai_score = 60 ∧
    (scanCore "http://example.com" httpOnly noTopReply).verdict = "SAFE" := by
  have hml : ml_score_calc httpOnly = (10, ["HTTPS not used"]) := by decide
  refine ⟨?_, rfl, ?_⟩
  · show ((ml_score_calc httpOnly).2 ++
      (noTopReply : GenaiReply).top_reasons.getD []).take 6 = _
    rw [hml]
    rfl
  · rw [scan_verdict_eq, show (ml_score_calc httpOnly).1 = 10 by decide]
    norm_num [noTopReply]

/-- C3 (amended): a reply missing `genai_score` is scored with the
default 50 and no error; but `genai_score` is not the only defaulted
field — a reply missing `top_reasons` likewise proceeds without error,
with the empty list silently substituted, so the merged reasons are the
heuristic reasons alone. -/
theorem field_level_defaults (url : String) (f : ScanFeatures)
    (v n : Option String) (tr : Option (List String))
    (gs : Option ℚ) (v2 n2 : Option String) :
    (scanCore url f ⟨none, v, tr, n⟩).genai_score = 50 ∧
    (scanCore url f ⟨gs, v2, none, n2⟩).reasons = ((ml_score_calc f).2).take 6 := by
  constructor
  · rfl
  · show ((ml_score_calc f).2 ++ ([] : List String)).take 6 = _
    rw [List.append_nil]

/-- C4: the heuristic scorer agrees with the spec's rule table — start
at 0, add each triggered rule's weight and append its reason in the
fixed order, clamp at 100; the all-triggered feature set scores 65 with
all five reasons in order, and the none-triggered feature set scores 0
with no reasons. -/
theorem ml_score_calc_matches_rule_table :
    (∀ f : ScanFeatures, ml_score_calc f = heuristicSpec f) ∧
    ml_score_calc allTriggered =
      (65, ["IP address used instead of domain", "Suspicious TLD detected",
            "Unusually long URL", "Too many hyphens in domain", "HTTPS not used"]) ∧
    ml_score_calc noneTriggered = (0, []) := by
  refine ⟨fun f => ?_, by decide, by decide⟩
  simp only [ml_score_calc, heuristicSpec, specRules, List.foldl, decide_eq_true_eq]

/-- C5: in every response the risk_score field equals the rounded
weighted fusion of the ml_score and genai_score fields of that same
response; the response record is total, so no partial result exists. -/
theorem risk_score_fusion_invariant (url : String) (f : ScanFeatures) (g : GenaiReply) :
    (scanCore url f g).risk_score =
      round2 (0.45 * (scanCore url f g).ml_score +
        0.55 * (scanCore url f g).genai_score) := rfl

/-- C6: the returned reasons are the heuristic reasons followed by the
reply's top_reasons, truncated to the first six entries with no
de-duplication, and their number never exceeds six. -/
theorem reasons_concat_truncation (url : String) (f : ScanFeatures) (g : GenaiReply) :
    (scanCore url f g).reasons =
      ((ml_score_calc f).2 ++ g.top_reasons.getD []).take 6 ∧
    (scanCore url f g).reasons.length ≤ 6 := by
  refine ⟨rfl, ?_⟩
  show (((ml_score_calc f).2 ++ g.top_reasons.getD []).take 6).length ≤ 6
  rw [List.length_take]
  exact min_le_left _ _

/-- C7: the heuristic score lies in [0, 100], and it is monotone in the
triggered rules — whenever every rule triggered by `f` is also triggered
by `g`, the score of `f` is at most that of `g`. -/
theorem heuristic_score_bounds_and_monotonicity :
    (∀ f : ScanFeatures, 0 ≤ (ml_score_calc f).1 ∧ (ml_score_calc f).1 ≤ 100) ∧
    (∀ f g : ScanFeatures,
      (f.looks_like_ip = true → g.looks_like_ip = true) →
      (f.suspicious_tld = true → g.suspicious_tld = true) →
      (f.url_length > 70 → g.url_length > 70) →
      (f.num_hyphens ≥ 3 → g.num_hyphens ≥ 3) →
      (f.has_https = false → g.has_https = false) →
      (ml_score_calc f).1 ≤ (ml_score_calc g).1) := by
  constructor
  · intro f
    refine ⟨Nat.zero_le _, ?_⟩
    rw [ml_fst_eq]
    exact Nat.min_le_right _ _
  · intro f g h1 h2 h3 h4 h5
    rw [ml_fst_eq f, ml_fst_eq g]
    apply condScore_mono
    · exact h1
    · exact h2
    · intro h; simpa using h3 (by simpa using h)
    · intro h; simpa using h4 (by simpa using h)
    · intro h; simpa [Bool.not_eq_true'] using h5 (by simpa [Bool.not_eq_true'] using h)

/-- Witness for C7: the rules triggered by the none-triggered feature
set form a subset of those triggered by the all-triggered one, and the
scores compare accordingly. -/
theorem heuristic_score_monotonicity_witness :
    (ml_score_calc noneTriggered).1 ≤ (ml_score_calc allTriggered).1 :=
  heuristic_score_bounds_and_monotonicity.2 noneTriggered allTriggered
    (by decide) (by decide) (by decide) (by decide) (by decide)

/-- C8: the `is_ip` check accepts a host iff it is exactly four
dot-separated groups of one to three digits each (digits in the sense of
the Python regex class `\d`, that is, Unicode decimal digits), with no
numeric range validation; in particular it accepts "192.168.1.1",
"192.168.1.999", and the Arabic-Indic-digit host "١.٢.٣.٤". -/
theorem is_ip_shape_characterisation :
    (∀ host : String, is_ip host = true ↔ fourGroups host.data) ∧
    is_ip "192.168.1.1" = true ∧ is_ip "192.168.1.999" = true ∧
    is_ip "١.٢.٣.٤" = true := by
  refine ⟨fun host => ?_, by decide, by decide, by decide⟩
  rw [is_ip, ipMatch, groupThen_tailGroups, GroupsProp_three]

/-- C9: two external replies that agree on genai_score and top_reasons
yield responses with the same verdict, risk_score, ml_score, genai_score
and reasons — the reply's own verdict label (and notes) influence only
the raw genai_summary field. -/
theorem external_verdict_label_noninterference (url : String) (f : ScanFeatures)
    (g1 g2 : GenaiReply)
    (hs : g1.genai_score = g2.genai_score) (ht : g1.top_reasons = g2.top_reasons) :
    (scanCore url f g1).verdict = (scanCore url f g2).verdict ∧
    (scanCore url f g1).risk_score = (scanCore url f g2).risk_score ∧
    (scanCore url f g1).ml_score = (scanCore url f g2).ml_score ∧
    (scanCore url f g1).genai_score = (scanCore url f g2).genai_score ∧
    (scanCore url f g1).reasons = (scanCore url f g2).reasons := by
  simp only [scanCore, hs, ht]
  simp

/-- Witness for C9: two concrete replies differing only in verdict label
and notes produce identical decision fields. -/
theorem external_verdict_label_noninterference_witness :
    (scanCore "http://w" noneTriggered ⟨some 60, some "SAFE", some ["a"], some "x"⟩).verdict =
      (scanCore "http://w" noneTriggered ⟨some 60, some "PHISHING", some ["a"], some "y"⟩).verdict ∧
    (scanCore "http://w" noneTriggered ⟨some 60, some "SAFE", some ["a"], some "x"⟩).risk_score =
      (scanCore "http://w" noneTriggered ⟨some 60, some "PHISHING", some ["a"], some "y"⟩).risk_score ∧
    (scanCore "http://w" noneTriggered ⟨some 60, some "SAFE", some ["a"], some "x"⟩).ml_score =
      (scanCore "http://w" noneTriggered ⟨some 60, some "PHISHING", some ["a"], some "y"⟩).ml_score ∧
    (scanCore "http://w" noneTriggered ⟨some 60, some "SAFE", some ["a"], some "x"⟩).genai_score =
      (scanCore "http://w" noneTriggered ⟨some 60, some "PHISHING", some ["a"], some "y"⟩).genai_score ∧
    (scanCore "http://w" noneTriggered ⟨some 60, some "SAFE", some ["a"], some "x"⟩).reasons =
      (scanCore "http://w" noneTriggered ⟨some 60, some "PHISHING", some ["a"], some "y"⟩).reasons :=
  external_verdict_label_noninterference "http://w" noneTriggered _ _ rfl rfl

/-- C10: the heuristic score never exceeds 65 (the sum of all rule
weights), so the clamp at 100 never changes the result: the scorer with
and without the clamp are extensionally equal. -/
theorem clamp_is_redundant :
    ∀ f : ScanFeatures,
      (ml_score_calc f).1 ≤ 65 ∧ ml_score_calc f = ml_score_calc_noclamp f := by
  intro f
  constructor
  · rw [ml_fst_eq, condScore]
    split_ifs <;> decide
  · simp only [ml_score_calc, ml_score_calc_noclamp]
    split_ifs <;> rfl

end PhishGuard
